import Mathlib

/-!
A shallow embedding of the intruder-detection repository's two source files,
`storage.py` (SQLite-backed alert store with Cloudinary upload, Firestore
mirror and IP geolocation) and `AI-backend/alert.py` (Telegram notifier).

External collaborators (geolocation service, image host, SQLite layer,
document store, HTTP endpoint) are modelled as oracle values describing the
outcome of the one call the code makes to each of them during an invocation;
`Except Unit` marks calls that can raise a Python exception.  A bare Python
`try/except` that logs and substitutes a default value is embedded as the
combinator `onExc`.  Machine-level details that no claim touches (the exact
float coordinates, the log strings) are abstracted: coordinates are `Int`,
log output is dropped.
-/

set_option autoImplicit false

namespace IntruderDetection

/-- A Python `try: e except: <fall back to d>` block around an
exception-raising computation `e`. -/
def onExc {α : Type} (x : Except Unit α) (d : α) : Except Unit α :=
  match x with
  | Except.error _ => Except.ok d
  | Except.ok a => Except.ok a

/-- Python truthiness of an optional string (`None` and `""` are falsy). -/
def optTruthy : Option String → Bool
  | some s => s ≠ ""
  | none => false

/-! ## Data model: one row of the `alerts` table (storage.py lines 44-57).
`id` is the AUTOINCREMENT primary key; `synced` and `telegram_sent` are
INTEGER columns that the code only ever writes as 0/1, embedded as `Bool`;
`latitude`/`longitude` are nullable REAL columns (abstracted to `Int`);
`location` is a nullable TEXT column. -/

structure AlertRow where
  id : Nat
  label : String
  timestamp : String
  image_path : String
  cloud_url : Option String
  synced : Bool
  telegram_sent : Bool
  latitude : Option Int
  longitude : Option Int
  location : Option String
deriving DecidableEq, Repr

/-- The local SQLite database: the rows of `alerts` in insertion order, plus
the AUTOINCREMENT counter (`sqlite_sequence`): the next fresh id, strictly
larger than every id ever used. -/
structure DB where
  rows : List AlertRow
  nextId : Nat
deriving DecidableEq, Repr

/-- A document of the remote `animal_alerts` Firestore collection
(storage.py lines 129-138). -/
structure RemoteDoc where
  label : String
  timestamp : String
  cloud_url : Option String
  local_path : String
  latitude : Option Int
  longitude : Option Int
  location : String
deriving DecidableEq, Repr

/-- Local database plus remote document collection. -/
structure SysState where
  db : DB
  remote : List RemoteDoc
deriving DecidableEq, Repr

/-- The lookup `SELECT ... FROM alerts WHERE image_path = ?` (first matching
row). -/
def lookupRow (db : DB) (path : String) : Option AlertRow :=
  db.rows.find? (fun r => r.image_path == path)

/-- The `INSERT OR REPLACE INTO alerts ... COALESCE((SELECT telegram_sent FROM
alerts WHERE image_path = ?), 0) ...` statement of storage.py lines 112-120:
the prior row's `telegram_sent` is read by the correlated subquery (defaulting
to 0), any row conflicting on the UNIQUE `image_path` is deleted, and a fresh
row is inserted with a new AUTOINCREMENT id. -/
def insertOrReplace (db : DB) (label timestamp img_path : String)
    (cloud_url : Option String) (synced : Bool)
    (latitude longitude : Option Int) (location : String) : DB :=
  let prior : Bool :=
    match lookupRow db img_path with
    | some r => r.telegram_sent
    | none => false
  { rows := db.rows.filter (fun r => r.image_path ≠ img_path) ++
      [{ id := db.nextId, label := label, timestamp := timestamp,
         image_path := img_path, cloud_url := cloud_url, synced := synced,
         telegram_sent := prior, latitude := latitude, longitude := longitude,
         location := some location }],
    nextId := db.nextId + 1 }

/-! ## Oracles for the external calls made by `store_alert` -/

/-- Outcome of a successful `geocoder.ip(\"me\")` call: the `latlng` list
and the `city` attribute (which may be `None`). -/
structure GeoResp where
  latlng : List Int
  city : Option String
deriving DecidableEq, Repr

/-- Outcome of a successful `cloudinary.uploader.upload` call: the response
dictionary's optional `secure_url` and `public_id` entries (read with
`res.get`). -/
structure UploadResp where
  secure_url : Option String
  public_id : Option String
deriving DecidableEq, Repr

/-- Environment of one `store_alert` invocation: the outcome of each external
call it makes.  `connectOk` is whether the SQLite connect/execute/commit
sequence succeeds; `firestoreConfigured` is whether the process-global
`firestore_db` client is non-`None`; `mirrorOk` is whether the Firestore
document write succeeds. -/
structure StoreEnv where
  geo : Except Unit GeoResp
  upload : Except Unit UploadResp
  connectOk : Bool
  firestoreConfigured : Bool
  mirrorOk : Bool

/-- Python list indexing, raising `IndexError` out of range. -/
def listIx (xs : List Int) (i : Nat) : Except Unit Int :=
  match xs.get? i with
  | some v => Except.ok v
  | none => Except.error ()

/-- Body of the geolocation `try` block (storage.py lines 87-90):
`g = geocoder.ip('me')`, `latitude = g.latlng[0] if g.latlng else None`,
`longitude = g.latlng[1] if g.latlng else None`,
`location = g.city if g.city else \"Unknown\"`. -/
def geoLookupE (geo : Except Unit GeoResp) :
    Except Unit (Option Int × Option Int × String) := do
  let g ← geo
  let latitude ← if g.latlng.isEmpty then pure (none : Option Int)
    else do
      let v ← listIx g.latlng 0
      pure (some v)
  let longitude ← if g.latlng.isEmpty then pure (none : Option Int)
    else do
      let v ← listIx g.latlng 1
      pure (some v)
  let location :=
    match g.city with
    | some c => if c == "" then "Unknown" else c
    | none => "Unknown"
  pure (latitude, longitude, location)

/-- Body of the Cloudinary `try` block (storage.py lines 97-104):
`res = cloudinary.uploader.upload(...)`, `cloud_url = res.get(\"secure_url\")`,
`public_id = res.get(\"public_id\")`. -/
def uploadStepE (upload : Except Unit UploadResp) :
    Except Unit (Option String × Option String) := do
  let r ← upload
  pure (r.secure_url, r.public_id)

/-- Body of the SQLite `try` block (storage.py lines 110-122): connect and
run the `INSERT OR REPLACE`; raises when the database layer fails, in which
case nothing is committed. -/
def sqliteInsertE (connectOk : Bool) (db : DB) (label timestamp img_path : String)
    (cloud_url : Option String) (latitude longitude : Option Int)
    (location : String) : Except Unit DB :=
  if connectOk then
    Except.ok (insertOrReplace db label timestamp img_path cloud_url
      (optTruthy cloud_url) latitude longitude location)
  else Except.error ()

/-- Body of the Firestore `try` block (storage.py lines 129-138): create a new
auto-identified document in the `animal_alerts` collection. -/
def mirrorE (mirrorOk : Bool) (remote : List RemoteDoc)
    (label timestamp : String) (cloud_url : Option String) (img_path : String)
    (latitude longitude : Option Int) (location : String) :
    Except Unit (List RemoteDoc) :=
  if mirrorOk then
    Except.ok (remote ++
      [{ label := label, timestamp := timestamp, cloud_url := cloud_url,
         local_path := img_path, latitude := latitude, longitude := longitude,
         location := location }])
  else Except.error ()

/-- Function `store_alert(label, img_path)` (storage.py lines 76-143).
`timestamp` is
the `datetime.now()` string computed on line 81.  Each `try/except` of the
source is `onExc`; the Firestore block is guarded by
`if firestore_db and cloud_url:` (line 127, with Python truthiness).
Returns the `(cloud_url, public_id)` pair and the updated local/remote
state. -/
def store_alertE (env : StoreEnv) (label img_path timestamp : String)
    (st : SysState) :
    Except Unit ((Option String × Option String) × SysState) := do
  let geoTriple ← onExc (geoLookupE env.geo) (none, none, "Unknown")
  let latitude := geoTriple.1
  let longitude := geoTriple.2.1
  let location := geoTriple.2.2
  let up ← onExc (uploadStepE env.upload) (none, none)
  let cloud_url := up.1
  let public_id := up.2
  let db' ← onExc (sqliteInsertE env.connectOk st.db label timestamp img_path
    cloud_url latitude longitude location) st.db
  let remote' ←
    if env.firestoreConfigured && optTruthy cloud_url then
      onExc (mirrorE env.mirrorOk st.remote label timestamp cloud_url img_path
        latitude longitude location) st.remote
    else pure st.remote
  pure ((cloud_url, public_id), { db := db', remote := remote' })

/-! ## Total companions (what each wrapped step evaluates to) -/

/-- The value produced by a `try/except` block: the computation's result on
success, the handler's default on an exception. -/
def resolve {α : Type} (x : Except Unit α) (d : α) : α :=
  match x with
  | Except.ok a => a
  | Except.error _ => d

theorem onExc_eq {α : Type} (x : Except Unit α) (d : α) :
    onExc x d = Except.ok (resolve x d) := by
  cases x <;> rfl

/-- Result of the geolocation step after its `try/except`. -/
def geoStep (geo : Except Unit GeoResp) : Option Int × Option Int × String :=
  resolve (geoLookupE geo) (none, none, "Unknown")

/-- Result of the upload step after its `try/except`. -/
def uploadStep (upload : Except Unit UploadResp) :
    Option String × Option String :=
  resolve (uploadStepE upload) (none, none)

theorem sqliteInsertE_resolve (connectOk : Bool) (db : DB)
    (label timestamp img_path : String) (cloud_url : Option String)
    (latitude longitude : Option Int) (location : String) :
    resolve (sqliteInsertE connectOk db label timestamp img_path cloud_url
        latitude longitude location) db =
      if connectOk then
        insertOrReplace db label timestamp img_path cloud_url
          (optTruthy cloud_url) latitude longitude location
      else db := by
  cases connectOk <;> rfl

theorem mirrorE_resolve (mirrorOk : Bool) (remote : List RemoteDoc)
    (label timestamp : String) (cloud_url : Option String) (img_path : String)
    (latitude longitude : Option Int) (location : String) :
    resolve (mirrorE mirrorOk remote label timestamp cloud_url img_path
        latitude longitude location) remote =
      if mirrorOk then
        remote ++
          [{ label := label, timestamp := timestamp, cloud_url := cloud_url,
             local_path := img_path, latitude := latitude,
             longitude := longitude, location := location }]
      else remote := by
  cases mirrorOk <;> rfl

theorem ite_ok_pure {α : Type} (c : Bool) (a b : α) :
    (if c then Except.ok a else pure b : Except Unit α) =
      Except.ok (if c then a else b) := by
  cases c <;> rfl

/-- Total evaluation of `store_alert`: what `store_alertE` returns once every
internal `try/except` has been resolved. -/
def storeAlertRun (env : StoreEnv) (label img_path timestamp : String)
    (st : SysState) : (Option String × Option String) × SysState :=
  let geoTriple := geoStep env.geo
  let latitude := geoTriple.1
  let longitude := geoTriple.2.1
  let location := geoTriple.2.2
  let up := uploadStep env.upload
  let cloud_url := up.1
  let public_id := up.2
  let db' :=
    if env.connectOk then
      insertOrReplace st.db label timestamp img_path cloud_url
        (optTruthy cloud_url) latitude longitude location
    else st.db
  let remote' :=
    if env.firestoreConfigured && optTruthy cloud_url then
      if env.mirrorOk then
        st.remote ++
          [{ label := label, timestamp := timestamp, cloud_url := cloud_url,
             local_path := img_path, latitude := latitude,
             longitude := longitude, location := location }]
      else st.remote
    else st.remote
  ((cloud_url, public_id), { db := db', remote := remote' })

theorem store_alertE_eq (env : StoreEnv) (label img_path timestamp : String)
    (st : SysState) :
    store_alertE env label img_path timestamp st =
      Except.ok (storeAlertRun env label img_path timestamp st) := by
  unfold store_alertE storeAlertRun geoStep uploadStep
  simp only [onExc_eq, mirrorE_resolve, ite_ok_pure, sqliteInsertE_resolve,
    bind, Except.bind, pure, Except.pure]
  cases h : (env.firestoreConfigured &&
      optTruthy (resolve (uploadStepE env.upload) (none, none)).1) <;>
    simp [h]

/-! ## `get_latest_alerts` (storage.py lines 145-152).
No `try/except` here: a failure of the SQLite layer propagates to the caller,
so the function returns in `Except`.  `ORDER BY id DESC` is embedded as an
insertion sort on the descending order of ids. -/

/-- The projection `SELECT label, timestamp, cloud_url, latitude, longitude,
location` of one row. -/
def projectRow (r : AlertRow) :
    String × String × Option String × Option Int × Option Int ×
      Option String :=
  (r.label, r.timestamp, r.cloud_url, r.latitude, r.longitude, r.location)

/-- Insert a row into a list kept in descending id order. -/
def insertDesc (r : AlertRow) : List AlertRow → List AlertRow
  | [] => [r]
  | x :: xs => if x.id ≤ r.id then r :: x :: xs else x :: insertDesc r xs

/-- Sort rows by id descending (`ORDER BY id DESC`). -/
def sortByIdDesc : List AlertRow → List AlertRow
  | [] => []
  | x :: xs => insertDesc x (sortByIdDesc xs)

/-- Function `get_latest_alerts(limit=20)` (storage.py lines 145-152): select
the
projected fields of all rows, most recent id first, `LIMIT limit`.
`connectOk` is whether the unguarded SQLite connect/execute sequence
succeeds; when it does not, the exception propagates (no handler in the
source). -/
def get_latest_alertsE (connectOk : Bool) (limit : Nat) (db : DB) :
    Except Unit
      (List (String × String × Option String × Option Int × Option Int ×
        Option String)) :=
  if connectOk then
    Except.ok (((sortByIdDesc db.rows).take limit).map projectRow)
  else Except.error ()

/-! ## `update_alert_status` (storage.py lines 154-171). -/

/-- Apply an update `f` to every row matching `image_path`
(`UPDATE alerts SET ... WHERE image_path = ?`). -/
def mapRows (db : DB) (img_path : String) (f : AlertRow → AlertRow) : DB :=
  { db with
    rows := db.rows.map (fun r => if r.image_path == img_path then f r else r) }

/-- Body of the `try` block of `update_alert_status` (storage.py lines
157-169): connect (can raise), return immediately when both flags are `None`
(line 159-161), otherwise run the one UPDATE statement the argument pattern
selects (lines 162-167; `1 if flag else 0` converts to an INTEGER).  A raise
of the database layer is modelled by `connectOk = false`. -/
def sqliteUpdateE (connectOk : Bool) (img_path : String)
    (telegram_ok synced : Option Bool) (db : DB) : Except Unit DB :=
  if connectOk then
    match telegram_ok, synced with
    | none, none => Except.ok db
    | some t, some s =>
      Except.ok (mapRows db img_path
        (fun r => { r with telegram_sent := t, synced := s }))
    | some t, none =>
      Except.ok (mapRows db img_path (fun r => { r with telegram_sent := t }))
    | none, some s =>
      Except.ok (mapRows db img_path (fun r => { r with synced := s }))
  else Except.error ()

/-- Function `update_alert_status(img_path, telegram_ok=None, synced=None)`
(storage.py lines 154-171): the whole body sits in one `try/except` that
logs and returns, leaving the database as it was when the statement did not
commit. -/
def update_alert_statusE (connectOk : Bool) (img_path : String)
    (telegram_ok synced : Option Bool) (db : DB) : Except Unit DB :=
  onExc (sqliteUpdateE connectOk img_path telegram_ok synced db) db

/-! ## `init_db` (storage.py lines 38-74).
The schema is abstracted to the list of column names of the `alerts` table
(`none` = the table does not exist yet); no `try/except` in the source, so
errors propagate. -/

/-- The ten columns of the `CREATE TABLE IF NOT EXISTS` statement
(storage.py lines 44-57). -/
def declaredColumns : List String :=
  ["id", "label", "timestamp", "image_path", "cloud_url", "synced",
   "telegram_sent", "latitude", "longitude", "location"]

/-- The five upgrade columns of the `upgrades` dict (storage.py lines
60-66), in iteration order. -/
def upgradeColumns : List String :=
  ["synced", "telegram_sent", "latitude", "longitude", "location"]

/-- Statement `ALTER TABLE alerts ADD COLUMN c ...`: raises an
OperationalError
(duplicate column name) when the column already exists. -/
def alterAdd (cols : List String) (c : String) : Except Unit (List String) :=
  if c ∈ cols then Except.error () else Except.ok (cols ++ [c])

/-- The upgrade loop of storage.py lines 67-70: `columns` was read once into
`snapshot` before the loop (line 59), and each upgrade column missing from
that snapshot is added to the live table. -/
def addMissing (snapshot : List String) :
    List String → List String → Except Unit (List String)
  | [], cols => Except.ok cols
  | c :: rest, cols =>
    if c ∈ snapshot then addMissing snapshot rest cols
    else do
      let cols' ← alterAdd cols c
      addMissing snapshot rest cols'

/-- Function `init_db()` (storage.py lines 38-74): create the table with the
ten
declared columns when absent, then add any upgrade column missing from the
inspected column list.  `connectOk` is whether the unguarded SQLite layer
succeeds; its failure propagates (no handler in the source).  Returns the
resulting column list of the `alerts` table. -/
def init_dbE (connectOk : Bool) (schema : Option (List String)) :
    Except Unit (List String) :=
  if connectOk then
    let cols :=
      match schema with
      | none => declaredColumns
      | some cs => cs
    addMissing cols upgradeColumns cols
  else Except.error ()

/-- Total evaluation of `init_db`: the column list it leaves behind. -/
def initDbRun (schema : Option (List String)) : List String :=
  let cols :=
    match schema with
    | none => declaredColumns
    | some cs => cs
  cols ++ upgradeColumns.filter (fun c => ¬ c ∈ cols)

/-! ## `send_alert` (AI-backend/alert.py lines 10-34). -/

/-- A `requests` HTTP response: status code and body text. -/
structure HttpResp where
  status_code : Nat
  text : String
deriving DecidableEq, Repr

/-- Environment of one `send_alert` invocation: the outcome of
`open(img_path, \"rb\")` and of `requests.post` (as a function of the caption
sent; an invalid bot token shows up as a non-200 response or a raised
transport error). -/
structure TgEnv where
  openFile : Except Unit Unit
  post : String → Except Unit HttpResp

/-- The caption built on alert.py lines 16-18: `\"[ALERT] {label} detected at
{timestamp}\"`, with `extra_msg` appended on a new line when truthy. -/
def captionOf (label timestamp : String) (extra_msg : Option String) :
    String :=
  let caption := "[ALERT] " ++ label ++ " detected at " ++ timestamp
  match extra_msg with
  | some m => if m == "" then caption else caption ++ "\n" ++ m
  | none => caption

/-- Body of the `try` block of `send_alert` (alert.py lines 15-31): build the
caption, open the image (can raise), POST it (can raise), and compare the
status code with 200. -/
def sendBodyE (env : TgEnv) (label timestamp : String)
    (extra_msg : Option String) : Except Unit Bool := do
  let caption := captionOf label timestamp extra_msg
  let _ ← env.openFile
  let resp ← env.post caption
  if resp.status_code == 200 then pure true else pure false

/-- Function `send_alert(label, timestamp, img_path, extra_msg=None)`
(alert.py lines
10-34): the whole body sits in one `try/except` whose handler logs and
returns `False`. -/
def send_alertE (env : TgEnv) (label timestamp img_path : String)
    (extra_msg : Option String) : Except Unit Bool :=
  onExc (sendBodyE env label timestamp extra_msg) false

/-! ## Helper lemmas -/

/-- Whether an embedded operation completed without an exception escaping. -/
def exceptOk {α : Type} : Except Unit α → Bool
  | Except.ok _ => true
  | Except.error _ => false

theorem exceptOk_of_eq_ok {α : Type} {x : Except Unit α} {a : α}
    (h : x = Except.ok a) : exceptOk x = true := by
  subst h; rfl

/-- The `telegram_sent` value the correlated subquery reads: the prior row's,
or 0 when no row with that path exists. -/
def priorTs (db : DB) (img_path : String) : Bool :=
  match lookupRow db img_path with
  | some r => r.telegram_sent
  | none => false

theorem insertOrReplace_rows (db : DB) (label timestamp img_path : String)
    (cloud_url : Option String) (synced : Bool)
    (latitude longitude : Option Int) (location : String) :
    (insertOrReplace db label timestamp img_path cloud_url synced latitude
        longitude location).rows =
      db.rows.filter (fun r => r.image_path ≠ img_path) ++
        [{ id := db.nextId, label := label, timestamp := timestamp,
           image_path := img_path, cloud_url := cloud_url, synced := synced,
           telegram_sent := priorTs db img_path, latitude := latitude,
           longitude := longitude, location := some location }] := rfl

theorem insertOrReplace_nextId (db : DB) (label timestamp img_path : String)
    (cloud_url : Option String) (synced : Bool)
    (latitude longitude : Option Int) (location : String) :
    (insertOrReplace db label timestamp img_path cloud_url synced latitude
        longitude location).nextId = db.nextId + 1 := rfl

theorem find?_filter_ne (rows : List AlertRow) (img_path : String) :
    (rows.filter (fun r => r.image_path ≠ img_path)).find?
      (fun r => r.image_path == img_path) = none := by
  rw [List.find?_eq_none]
  intro x hx
  have hmem := List.mem_filter.mp hx
  simp only [decide_not, Bool.not_eq_true', decide_eq_false_iff_not] at hmem
  simp [hmem.2]

/-- After the upsert, looking the path up finds exactly the freshly inserted
row. -/
theorem lookupRow_insertOrReplace (db : DB) (label timestamp img_path : String)
    (cloud_url : Option String) (synced : Bool)
    (latitude longitude : Option Int) (location : String) :
    lookupRow (insertOrReplace db label timestamp img_path cloud_url synced
        latitude longitude location) img_path =
      some { id := db.nextId, label := label, timestamp := timestamp,
             image_path := img_path, cloud_url := cloud_url, synced := synced,
             telegram_sent := priorTs db img_path, latitude := latitude,
             longitude := longitude, location := some location } := by
  unfold lookupRow
  rw [insertOrReplace_rows, List.find?_append, find?_filter_ne]
  simp [List.find?]

theorem init_dbE_false (schema : Option (List String)) :
    init_dbE false schema = Except.error () := rfl

theorem get_latest_alertsE_false (limit : Nat) (db : DB) :
    get_latest_alertsE false limit db = Except.error () := rfl

theorem alterAdd_not_mem {cols : List String} {c : String} (h : ¬ c ∈ cols) :
    alterAdd cols c = Except.ok (cols ++ [c]) := by
  simp [alterAdd, h]

theorem addMissing_eq (snapshot : List String) :
    ∀ (todo acc : List String), todo.Nodup → (∀ c ∈ todo, ¬ c ∈ acc) →
    addMissing snapshot todo (snapshot ++ acc) =
      Except.ok (snapshot ++ acc ++
        todo.filter (fun c => ¬ c ∈ snapshot))
  | [], acc, _, _ => by simp [addMissing]
  | c :: rest, acc, hnd, hacc => by
    by_cases hc : c ∈ snapshot
    · rw [addMissing, if_pos hc,
        addMissing_eq snapshot rest acc hnd.of_cons
          (fun x hx => hacc x (List.mem_cons_of_mem c hx))]
      simp [List.filter_cons, hc]
    · have hnotin : ¬ c ∈ snapshot ++ acc := by
        simp only [List.mem_append, not_or]
        exact ⟨hc, hacc c (List.mem_cons_self c rest)⟩
      have hrest : ∀ x ∈ rest, ¬ x ∈ acc ++ [c] := by
        intro x hx
        simp only [List.mem_append, List.mem_singleton, not_or]
        refine ⟨hacc x (List.mem_cons_of_mem c hx), ?_⟩
        intro hxc
        subst hxc
        exact (List.nodup_cons.mp hnd).1 hx
      rw [addMissing, if_neg hc]
      rw [show (snapshot ++ acc) = (snapshot ++ acc) from rfl]
      rw [alterAdd_not_mem hnotin]
      show addMissing snapshot rest (snapshot ++ acc ++ [c]) = _
      rw [List.append_assoc snapshot acc [c],
        addMissing_eq snapshot rest (acc ++ [c]) hnd.of_cons hrest]
      simp [List.filter_cons, hc, List.append_assoc]

/-- What a successful `init_db` run leaves behind. -/
theorem init_dbE_true_eq (schema : Option (List String)) :
    init_dbE true schema = Except.ok (initDbRun schema) := by
  unfold init_dbE initDbRun
  have h := addMissing_eq
    (match schema with
     | none => declaredColumns
     | some cs => cs)
    upgradeColumns [] (by decide) (by simp)
  simpa using h

theorem upgrade_mem_initDbRun (schema : Option (List String)) :
    ∀ c ∈ upgradeColumns, c ∈ initDbRun schema := by
  intro c hc
  unfold initDbRun
  by_cases h : c ∈ (match schema with
    | none => declaredColumns
    | some cs => cs)
  · exact List.mem_append_left _ h
  · refine List.mem_append_right _ ?_
    rw [List.mem_filter]
    exact ⟨hc, by simpa using h⟩

theorem initDbRun_stable (schema : Option (List String)) :
    initDbRun (some (initDbRun schema)) = initDbRun schema := by
  have hmem := upgrade_mem_initDbRun schema
  show initDbRun schema ++ _ = initDbRun schema
  rw [List.filter_eq_nil_iff.mpr (fun c hc => by simpa using hmem c hc)]
  exact List.append_nil _

theorem insertDesc_append_last (r : AlertRow) :
    ∀ ys : List AlertRow, (∀ y ∈ ys, r.id < y.id) → insertDesc r ys = ys ++ [r]
  | [], _ => rfl
  | y :: ys, h => by
    have hy : ¬ y.id ≤ r.id := by
      have := h y (List.mem_cons_self y ys)
      omega
    rw [insertDesc, if_neg hy,
      insertDesc_append_last r ys (fun z hz => h z (List.mem_cons_of_mem y hz))]
    rfl

/-- Sorting by `ORDER BY id DESC` on rows stored in increasing-id order
reverses them. -/
theorem sortByIdDesc_of_sorted :
    ∀ l : List AlertRow, l.Pairwise (fun a b => a.id < b.id) →
    sortByIdDesc l = l.reverse
  | [], _ => rfl
  | x :: xs, h => by
    rw [sortByIdDesc, sortByIdDesc_of_sorted xs h.of_cons,
      insertDesc_append_last x xs.reverse
        (fun y hy => (List.pairwise_cons.mp h).1 y (List.mem_reverse.mp hy)),
      List.reverse_cons]

/-- The rows of the upsert result are again in increasing-id order. -/
theorem pairwise_insertOrReplace (db : DB) (label timestamp img_path : String)
    (cloud_url : Option String) (synced : Bool)
    (latitude longitude : Option Int) (location : String)
    (hs : db.rows.Pairwise (fun a b => a.id < b.id))
    (hb : ∀ x ∈ db.rows, x.id < db.nextId) :
    (insertOrReplace db label timestamp img_path cloud_url synced latitude
        longitude location).rows.Pairwise (fun a b => a.id < b.id) := by
  rw [insertOrReplace_rows, List.pairwise_append]
  refine ⟨hs.sublist (List.filter_sublist db.rows), by simp, ?_⟩
  intro a ha b hb'
  rw [List.mem_singleton] at hb'
  subst hb'
  exact hb a (List.mem_of_mem_filter ha)

theorem mapRows_nextId (db : DB) (img_path : String) (f : AlertRow → AlertRow) :
    (mapRows db img_path f).nextId = db.nextId := rfl

/-- When no row carries the path, the UPDATE statement touches nothing. -/
theorem mapRows_no_match (db : DB) (img_path : String) (f : AlertRow → AlertRow)
    (h : lookupRow db img_path = none) : mapRows db img_path f = db := by
  unfold mapRows
  unfold lookupRow at h
  rw [List.find?_eq_none] at h
  have heq : db.rows.map
      (fun r => if r.image_path == img_path then f r else r) =
        db.rows.map id := by
    refine List.map_congr_left ?_
    intro a ha
    rw [if_neg (fun hcontra => h a ha hcontra)]
    rfl
  rw [heq, List.map_id]

theorem exceptOk_onExc {α : Type} (x : Except Unit α) (d : α) :
    exceptOk (onExc x d) = true := by
  cases x <;> rfl

/-! ## Claims -/

/-- Claim C4: `send_alert(label, timestamp, image_path, extra_message)`
returns true exactly when the messaging endpoint answers the POST with HTTP
200; any other status code, a failure to open the image file, a bad bot
token or any raised transport error is caught (logged) and reported as
`False`, and no exception escapes to the caller. -/
theorem C4_send_alert_true_iff_http200 (env : TgEnv)
    (label timestamp img_path : String) (extra_msg : Option String) :
    exceptOk (send_alertE env label timestamp img_path extra_msg) = true ∧
    (send_alertE env label timestamp img_path extra_msg = Except.ok true ↔
      env.openFile = Except.ok () ∧
      ∃ resp,
        env.post (captionOf label timestamp extra_msg) = Except.ok resp ∧
          resp.status_code = 200) := by
  refine ⟨?_, ?_⟩
  · exact exceptOk_onExc _ _
  · unfold send_alertE sendBodyE
    cases ho : env.openFile with
    | error e =>
      simp [onExc, bind, Except.bind, ho]
    | ok u =>
      cases u
      cases hp : env.post (captionOf label timestamp extra_msg) with
      | error e =>
        simp [onExc, bind, Except.bind, ho, hp]
      | ok resp =>
        cases h200 : resp.status_code == 200 with
        | true =>
          simp only [Nat.beq_eq_true_eq] at h200
          simp [onExc, bind, Except.bind, ho, hp, pure, Except.pure, h200]
        | false =>
          have hne : resp.status_code ≠ 200 := by
            intro h
            rw [h] at h200
            exact absurd h200 (by decide)
          simp [onExc, bind, Except.bind, ho, hp, pure, Except.pure, hne]

/-- Claim C6: any failing geolocation lookup in `store_alert` — a raised
exception, an empty `latlng` with falsy `city`, or a malformed one-element
`latlng` list — degrades to absent coordinates and location `"Unknown"`,
and `store_alert` never lets the step's exception reach the caller. -/
theorem C6_geolocation_degrades (env : StoreEnv)
    (label img_path timestamp : String) (st : SysState) :
    ((env.geo = Except.error () ∨
      (∃ g, env.geo = Except.ok g ∧ g.latlng = [] ∧
        (g.city = none ∨ g.city = some "")) ∨
      (∃ g x, env.geo = Except.ok g ∧ g.latlng = [x])) →
      geoStep env.geo = (none, none, "Unknown")) ∧
    exceptOk (store_alertE env label img_path timestamp st) = true := by
  constructor
  · rintro (h | ⟨g, h, hl, hc⟩ | ⟨g, x, h, hl⟩)
    · rw [h]; rfl
    · rw [h]
      unfold geoStep resolve geoLookupE
      rcases hc with hc | hc <;>
        simp [hl, hc, bind, Except.bind, pure, Except.pure, listIx]
    · rw [h]
      unfold geoStep resolve geoLookupE
      simp [hl, bind, Except.bind, pure, Except.pure, listIx]
  · exact exceptOk_of_eq_ok (store_alertE_eq env label img_path timestamp st)

/-- Witness for C6 at a concrete malformed geolocation response. -/
theorem C6_witness :
    geoStep (Except.ok { latlng := [7], city := some "Paris" }) =
      (none, none, "Unknown") ∧
    exceptOk (store_alertE
      { geo := Except.ok { latlng := [7], city := some "Paris" },
        upload := Except.error (), connectOk := true,
        firestoreConfigured := false, mirrorOk := false }
      "elephant" "img/e1.jpg" "2026-10-12 10:00:00"
      { db := { rows := [], nextId := 1 }, remote := [] }) = true := by
  have h := C6_geolocation_degrades
    { geo := Except.ok { latlng := [7], city := some "Paris" },
      upload := Except.error (), connectOk := true,
      firestoreConfigured := false, mirrorOk := false }
    "elephant" "img/e1.jpg" "2026-10-12 10:00:00"
    { db := { rows := [], nextId := 1 }, remote := [] }
  exact ⟨h.1 (Or.inr (Or.inr ⟨_, 7, rfl, rfl⟩)), h.2⟩

/-- Claim C3 is false as stated: `get_latest_alerts` (storage.py lines
145-152) wraps its database calls in no handler, so a failure of the SQLite
layer (for example an unreadable or corrupt database file) propagates past
the function boundary instead of being logged and degraded. -/
theorem C3_counterexample_get_latest_raises :
    exceptOk (get_latest_alertsE false 20 { rows := [], nextId := 1 }) =
      false := rfl

/-- Claim C3 amended: `send_alert`, `store_alert` and `update_alert_status`
wrap every external call and never let an exception propagate; `init_db` and
`get_latest_alerts` leave their database calls unwrapped, so a failing
database layer propagates out of them, and they raise nothing otherwise. -/
theorem C3_amended_propagation_policy :
    (∀ (env : TgEnv) (label timestamp img_path : String)
        (extra_msg : Option String),
      exceptOk (send_alertE env label timestamp img_path extra_msg) = true) ∧
    (∀ (env : StoreEnv) (label img_path timestamp : String) (st : SysState),
      exceptOk (store_alertE env label img_path timestamp st) = true) ∧
    (∀ (connectOk : Bool) (img_path : String)
        (telegram_ok synced : Option Bool) (db : DB),
      exceptOk (update_alert_statusE connectOk img_path telegram_ok synced
        db) = true) ∧
    (∀ schema, exceptOk (init_dbE true schema) = true) ∧
    (∀ (limit : Nat) (db : DB),
      exceptOk (get_latest_alertsE true limit db) = true) ∧
    (∀ schema, exceptOk (init_dbE false schema) = false) ∧
    (∀ (limit : Nat) (db : DB),
      exceptOk (get_latest_alertsE false limit db) = false) := by
  refine ⟨?_, ?_, ?_, ?_, ?_, ?_, ?_⟩
  · intro env label timestamp img_path extra_msg
    exact exceptOk_onExc _ _
  · intro env label img_path timestamp st
    exact exceptOk_of_eq_ok (store_alertE_eq env label img_path timestamp st)
  · intro connectOk img_path telegram_ok synced db
    exact exceptOk_onExc _ _
  · intro schema
    exact exceptOk_of_eq_ok (init_dbE_true_eq schema)
  · intro limit db
    rfl
  · intro schema
    rfl
  · intro limit db
    rfl

/-- Claim C7: `update_alert_status` with both flags absent returns
immediately leaving every row unmodified; with flags given it rewrites only
the flag columns of rows matching `image_path` and nothing else; a path
matching no row is silently accepted; and a database error is caught, never
raised. -/
theorem C7_update_alert_status_frame (connectOk : Bool) (img_path : String)
    (telegram_ok synced : Option Bool) (db : DB) :
    exceptOk (update_alert_statusE connectOk img_path telegram_ok synced db) =
      true ∧
    update_alert_statusE connectOk img_path none none db = Except.ok db ∧
    (connectOk = false →
      update_alert_statusE connectOk img_path telegram_ok synced db =
        Except.ok db) ∧
    (lookupRow db img_path = none →
      update_alert_statusE connectOk img_path telegram_ok synced db =
        Except.ok db) ∧
    (connectOk = true →
      update_alert_statusE connectOk img_path telegram_ok synced db =
        Except.ok
          { rows := db.rows.map (fun r =>
              if r.image_path == img_path then
                { r with telegram_sent := telegram_ok.getD r.telegram_sent,
                         synced := synced.getD r.synced }
              else r),
            nextId := db.nextId }) := by
  refine ⟨exceptOk_onExc _ _, ?_, ?_, ?_, ?_⟩
  · cases connectOk <;> rfl
  · rintro rfl
    rfl
  · intro h
    cases connectOk with
    | false => rfl
    | true =>
      cases telegram_ok <;> cases synced <;>
        simp [update_alert_statusE, sqliteUpdateE, onExc,
          mapRows_no_match _ _ _ h]
  · rintro rfl
    have hrows : ∀ f g : AlertRow → AlertRow, (∀ r, f r = g r) →
        db.rows.map f = db.rows.map g :=
      fun f g h => List.map_congr_left (fun a _ => h a)
    cases telegram_ok <;> cases synced <;>
      refine congrArg Except.ok ?_
    · show db = _
      cases db with
      | mk rows nextId =>
        refine congrArg (fun l => DB.mk l nextId) ?_
        rw [show rows.map _ = rows.map id from
          List.map_congr_left (fun a _ => by cases a <;> simp [Option.getD]),
          List.map_id]
    · show mapRows _ _ _ = _
      unfold mapRows
      refine congrArg (fun l => DB.mk l db.nextId) ?_
      exact hrows _ _ (fun r => by cases r <;> simp [Option.getD])
    · show mapRows _ _ _ = _
      unfold mapRows
      refine congrArg (fun l => DB.mk l db.nextId) ?_
      exact hrows _ _ (fun r => by cases r <;> simp [Option.getD])
    · show mapRows _ _ _ = _
      unfold mapRows
      refine congrArg (fun l => DB.mk l db.nextId) ?_
      exact hrows _ _ (fun r => by cases r <;> simp [Option.getD])

/-- A demonstration row. -/
def rowA : AlertRow :=
  { id := 1, label := "cat", timestamp := "t1", image_path := "img/a.jpg",
    cloud_url := none, synced := false, telegram_sent := false,
    latitude := none, longitude := none, location := some "Unknown" }

/-- A demonstration database holding just `rowA`. -/
def dbA : DB := { rows := [rowA], nextId := 2 }

/-- Witness for C7 at a concrete database: a no-op double-`None` call, a
nonexistent path, a database error, and a real flag update. -/
theorem C7_witness :
    update_alert_statusE true "img/a.jpg" none none dbA = Except.ok dbA ∧
    update_alert_statusE true "img/none.jpg" (some true) none dbA =
      Except.ok dbA ∧
    update_alert_statusE false "img/a.jpg" (some true) (some true) dbA =
      Except.ok dbA ∧
    update_alert_statusE true "img/a.jpg" (some true) (some true) dbA =
      Except.ok
        { rows := [{ rowA with telegram_sent := true, synced := true }],
          nextId := 2 } := by
  refine ⟨?_, ?_, ?_, ?_⟩
  · exact (C7_update_alert_status_frame true "img/a.jpg" none none dbA).2.1
  · exact (C7_update_alert_status_frame true "img/none.jpg" (some true) none
      dbA).2.2.2.1 (by decide)
  · exact (C7_update_alert_status_frame false "img/a.jpg" (some true)
      (some true) dbA).2.2.1 rfl
  · have h := (C7_update_alert_status_frame true "img/a.jpg" (some true)
      (some true) dbA).2.2.2.2 rfl
    rw [h]
    rfl

/-- Claim C8: `init_db()` is idempotent: a first call from any schema state
succeeds with no duplicate-column error, a second call returns the identical
column list, a fresh database gets exactly the ten declared columns, and
every upgrade column is present afterwards. -/
theorem C8_init_db_idempotent (schema : Option (List String)) :
    init_dbE true schema = Except.ok (initDbRun schema) ∧
    init_dbE true (some (initDbRun schema)) = Except.ok (initDbRun schema) ∧
    (schema = none → initDbRun schema = declaredColumns) ∧
    ∀ c ∈ upgradeColumns, c ∈ initDbRun schema := by
  refine ⟨init_dbE_true_eq schema, ?_, ?_, upgrade_mem_initDbRun schema⟩
  · rw [init_dbE_true_eq (some (initDbRun schema)), initDbRun_stable]
  · rintro rfl
    decide

/-- Witness for C8: two calls on a fresh database, and two calls on a legacy
table missing the five upgrade columns. -/
theorem C8_witness :
    init_dbE true none = Except.ok declaredColumns ∧
    init_dbE true (some declaredColumns) = Except.ok declaredColumns ∧
    init_dbE true
        (some ["id", "label", "timestamp", "image_path", "cloud_url"]) =
      Except.ok declaredColumns := by
  have h := C8_init_db_idempotent none
  have he : initDbRun none = declaredColumns := h.2.2.1 rfl
  refine ⟨?_, ?_, ?_⟩
  · rw [h.1, he]
  · rw [← he]
    rw [show (initDbRun none : List String) = initDbRun none from rfl] at *
    have h2 := h.2.1
    rwa [he] at h2
  · have h3 := (C8_init_db_idempotent
      (some ["id", "label", "timestamp", "image_path", "cloud_url"])).1
    rw [h3,
      show initDbRun (some ["id", "label", "timestamp", "image_path",
        "cloud_url"]) = declaredColumns from by decide]

theorem storeAlertRun_ret (env : StoreEnv) (label img_path timestamp : String)
    (st : SysState) :
    (storeAlertRun env label img_path timestamp st).1 =
      uploadStep env.upload := rfl

theorem storeAlertRun_db (env : StoreEnv) (label img_path timestamp : String)
    (st : SysState) :
    (storeAlertRun env label img_path timestamp st).2.db =
      if env.connectOk then
        insertOrReplace st.db label timestamp img_path
          (uploadStep env.upload).1 (optTruthy (uploadStep env.upload).1)
          (geoStep env.geo).1 (geoStep env.geo).2.1 (geoStep env.geo).2.2
      else st.db := rfl

theorem storeAlertRun_remote (env : StoreEnv)
    (label img_path timestamp : String) (st : SysState) :
    (storeAlertRun env label img_path timestamp st).2.remote =
      if env.firestoreConfigured && optTruthy (uploadStep env.upload).1 then
        if env.mirrorOk then
          st.remote ++
            [{ label := label, timestamp := timestamp,
               cloud_url := (uploadStep env.upload).1,
               local_path := img_path, latitude := (geoStep env.geo).1,
               longitude := (geoStep env.geo).2.1,
               location := (geoStep env.geo).2.2 }]
        else st.remote
      else st.remote := rfl

theorem uploadStep_ok (resp : UploadResp) :
    uploadStep (Except.ok resp) = (resp.secure_url, resp.public_id) := rfl

theorem uploadStep_error (e : Unit) :
    uploadStep (Except.error e) = (none, none) := rfl

/-- The row `store_alert` leaves in the local store for its path when the
database layer works: fresh id, current fields, carried-over
`telegram_sent`. -/
def insertedRow (env : StoreEnv) (label timestamp img_path : String)
    (db : DB) : AlertRow :=
  { id := db.nextId, label := label, timestamp := timestamp,
    image_path := img_path, cloud_url := (uploadStep env.upload).1,
    synced := optTruthy (uploadStep env.upload).1,
    telegram_sent := priorTs db img_path,
    latitude := (geoStep env.geo).1, longitude := (geoStep env.geo).2.1,
    location := some (geoStep env.geo).2.2 }

theorem lookup_run_db (env : StoreEnv) (label img_path timestamp : String)
    (st : SysState) (hconn : env.connectOk = true) :
    lookupRow (storeAlertRun env label img_path timestamp st).2.db img_path =
      some (insertedRow env label timestamp img_path st.db) := by
  rw [storeAlertRun_db, if_pos hconn, lookupRow_insertOrReplace]
  rfl

/-- Claim C1: calling `store_alert` again with an `image_path` already in
the local store replaces the row, but the new row's `telegram_sent` equals
the prior row's value; with no prior row it defaults to false. -/
theorem C1_store_alert_preserves_telegram_sent (env : StoreEnv)
    (label img_path timestamp : String) (st : SysState)
    (hconn : env.connectOk = true) :
    ∃ ret st' r',
      store_alertE env label img_path timestamp st = Except.ok (ret, st') ∧
      lookupRow st'.db img_path = some r' ∧
      r'.id = st.db.nextId ∧
      r'.telegram_sent =
        (match lookupRow st.db img_path with
         | some r => r.telegram_sent
         | none => false) := by
  refine ⟨(storeAlertRun env label img_path timestamp st).1,
    (storeAlertRun env label img_path timestamp st).2,
    insertedRow env label timestamp img_path st.db,
    ?_, lookup_run_db env label img_path timestamp st hconn, rfl, rfl⟩
  rw [store_alertE_eq]

/-- A `store_alert` environment where every remote collaborator fails or is
absent and only the local database works. -/
def envPlain : StoreEnv :=
  { geo := Except.error (), upload := Except.error (), connectOk := true,
    firestoreConfigured := false, mirrorOk := false }

/-- Row `rowA` with its notification flag already set. -/
def rowTs : AlertRow := { rowA with telegram_sent := true }

/-- A store whose only row has `telegram_sent = true`. -/
def dbTs : DB := { rows := [rowTs], nextId := 2 }

/-- Witness for C1: re-storing `img/a.jpg` keeps `telegram_sent = true`. -/
theorem C1_witness :
    ∃ ret st' r',
      store_alertE envPlain "cat" "img/a.jpg" "t2"
        { db := dbTs, remote := [] } = Except.ok (ret, st') ∧
      lookupRow st'.db "img/a.jpg" = some r' ∧
      r'.id = 2 ∧ r'.telegram_sent = true := by
  obtain ⟨ret, st', r', h1, h2, h3, h4⟩ :=
    C1_store_alert_preserves_telegram_sent envPlain "cat" "img/a.jpg" "t2"
      { db := dbTs, remote := [] } rfl
  refine ⟨ret, st', r', h1, h2, h3, ?_⟩
  rw [h4]
  decide

/-- Claim C2: `store_alert` always returns the `(cloud_url, public_id)`
pair; under the image host's response contract (a successful upload response
carries a nonempty `secure_url` and a `public_id`) both are absent together
or present together, present only when the upload succeeded; the inserted
row has `synced` true iff a cloud URL was obtained; and when the upload
raises, the call still completes, returns `(absent, absent)` and inserts a
row with `cloud_url` absent and `synced` false. -/
theorem C2_store_alert_return_and_synced (env : StoreEnv)
    (label img_path timestamp : String) (st : SysState)
    (hconn : env.connectOk = true)
    (hcontract : ∀ resp, env.upload = Except.ok resp →
      (∃ s, resp.secure_url = some s ∧ s ≠ "") ∧
        resp.public_id.isSome = true) :
    ∃ cu pid st',
      store_alertE env label img_path timestamp st =
        Except.ok ((cu, pid), st') ∧
      cu.isSome = pid.isSome ∧
      (cu.isSome = true → ∃ resp, env.upload = Except.ok resp) ∧
      (∃ r', lookupRow st'.db img_path = some r' ∧ r'.cloud_url = cu ∧
        r'.synced = cu.isSome) ∧
      (env.upload = Except.error () →
        cu = none ∧ pid = none ∧
        ∃ r', lookupRow st'.db img_path = some r' ∧ r'.cloud_url = none ∧
          r'.synced = false) := by
  have hdb : (storeAlertRun env label img_path timestamp st).2.db =
      insertOrReplace st.db label timestamp img_path
        (uploadStep env.upload).1 (optTruthy (uploadStep env.upload).1)
        (geoStep env.geo).1 (geoStep env.geo).2.1 (geoStep env.geo).2.2 := by
    rw [storeAlertRun_db, if_pos hconn]
  have hopt : optTruthy (uploadStep env.upload).1 =
      ((uploadStep env.upload).1).isSome := by
    cases hu : env.upload with
    | error e => rfl
    | ok resp =>
      obtain ⟨⟨s, hs, hsne⟩, _⟩ := hcontract resp hu
      rw [uploadStep_ok, hs]
      simp [optTruthy, hsne]
  refine ⟨(uploadStep env.upload).1, (uploadStep env.upload).2,
    (storeAlertRun env label img_path timestamp st).2, ?_, ?_, ?_, ?_, ?_⟩
  · rw [store_alertE_eq]
    exact rfl
  · cases hu : env.upload with
    | error e => rfl
    | ok resp =>
      obtain ⟨⟨s, hs, _⟩, hpid⟩ := hcontract resp hu
      rw [uploadStep_ok, hs]
      simp [hpid]
  · intro hsome
    cases hu : env.upload with
    | error e =>
      rw [hu, uploadStep_error] at hsome
      exact absurd hsome (by decide)
    | ok resp => exact ⟨resp, rfl⟩
  · exact ⟨insertedRow env label timestamp img_path st.db,
      lookup_run_db env label img_path timestamp st hconn, rfl, hopt⟩
  · intro hu
    have h1 : (uploadStep env.upload).1 = none := by
      rw [hu, uploadStep_error]
    have h2 : (uploadStep env.upload).2 = none := by
      rw [hu, uploadStep_error]
    refine ⟨h1, h2, insertedRow env label timestamp img_path st.db,
      lookup_run_db env label img_path timestamp st hconn, h1, ?_⟩
    show optTruthy (uploadStep env.upload).1 = false
    rw [h1]
    rfl

/-- A `store_alert` environment where the upload succeeds. -/
def envUpload : StoreEnv :=
  { geo := Except.error (),
    upload := Except.ok
      { secure_url := some "https://res.example/wildlife_alerts/a.jpg",
        public_id := some "wildlife_alerts/a" },
    connectOk := true, firestoreConfigured := false, mirrorOk := false }

/-- Witness for C2 at a successful concrete upload. -/
theorem C2_witness :
    ∃ cu pid st',
      store_alertE envUpload "cat" "img/a.jpg" "t1"
        { db := { rows := [], nextId := 1 }, remote := [] } =
        Except.ok ((cu, pid), st') ∧
      cu.isSome = pid.isSome ∧
      (cu.isSome = true → ∃ resp, envUpload.upload = Except.ok resp) ∧
      (∃ r', lookupRow st'.db "img/a.jpg" = some r' ∧ r'.cloud_url = cu ∧
        r'.synced = cu.isSome) ∧
      (envUpload.upload = Except.error () →
        cu = none ∧ pid = none ∧
        ∃ r', lookupRow st'.db "img/a.jpg" = some r' ∧ r'.cloud_url = none ∧
          r'.synced = false) := by
  refine C2_store_alert_return_and_synced envUpload "cat" "img/a.jpg" "t1"
    { db := { rows := [], nextId := 1 }, remote := [] } rfl ?_
  intro resp h
  have hresp := Except.ok.inj h
  rw [← hresp]
  exact ⟨⟨"https://res.example/wildlife_alerts/a.jpg", rfl, by decide⟩, rfl⟩

theorem sysState_eta (s : SysState) (t : List RemoteDoc) (h : s.remote = t) :
    s = SysState.mk s.db t := by
  rw [← h]

/-- Claim C5: the Firestore mirror is attempted iff a document-store client
is configured and a (truthy) cloud URL was obtained; a failing mirror write
is caught — the call still returns normally — and leaves both the local
insert and the returned pair untouched. -/
theorem C5_mirror_guard_and_isolation (env : StoreEnv)
    (label img_path timestamp : String) (st : SysState) :
    exceptOk (store_alertE env label img_path timestamp st) = true ∧
    ∃ ret st',
      store_alertE env label img_path timestamp st = Except.ok (ret, st') ∧
      st'.remote =
        (if env.firestoreConfigured && optTruthy ret.1 then
          if env.mirrorOk then
            st.remote ++
              [{ label := label, timestamp := timestamp, cloud_url := ret.1,
                 local_path := img_path, latitude := (geoStep env.geo).1,
                 longitude := (geoStep env.geo).2.1,
                 location := (geoStep env.geo).2.2 }]
          else st.remote
        else st.remote) ∧
      store_alertE { env with mirrorOk := false } label img_path timestamp
          st = Except.ok (ret, { db := st'.db, remote := st.remote }) := by
  refine ⟨exceptOk_of_eq_ok (store_alertE_eq env label img_path timestamp st),
    (storeAlertRun env label img_path timestamp st).1,
    (storeAlertRun env label img_path timestamp st).2, ?_, rfl, ?_⟩
  · rw [store_alertE_eq]
  · rw [store_alertE_eq]
    refine congrArg Except.ok (Prod.ext rfl ?_)
    exact sysState_eta _ _ (by rw [storeAlertRun_remote]; simp)

/-- Witness for C5: with Firestore configured and the upload succeeding, a
failing mirror write is absorbed and the local row is still inserted. -/
theorem C5_witness :
    exceptOk (store_alertE
      { envUpload with firestoreConfigured := true, mirrorOk := false }
      "cat" "img/a.jpg" "t1"
      { db := { rows := [], nextId := 1 }, remote := [] }) = true := by
  exact (C5_mirror_guard_and_isolation
    { envUpload with firestoreConfigured := true, mirrorOk := false }
    "cat" "img/a.jpg" "t1"
    { db := { rows := [], nextId := 1 }, remote := [] }).1

/-- Claim C9: `get_latest_alerts(limit)` returns up to `limit` records,
most recently inserted first (insertion order descending), each projected to
`(label, timestamp, cloud_url, latitude, longitude, location)`, with no
filtering. -/
theorem C9_get_latest_alerts (limit : Nat) (db : DB)
    (hsorted : db.rows.Pairwise (fun a b => a.id < b.id)) :
    get_latest_alertsE true limit db =
      Except.ok ((db.rows.reverse.take limit).map projectRow) ∧
    ((db.rows.reverse.take limit).map projectRow).length =
      min limit db.rows.length := by
  constructor
  · unfold get_latest_alertsE
    rw [if_pos rfl, sortByIdDesc_of_sorted db.rows hsorted]
  · rw [List.length_map, List.length_take, List.length_reverse]

/-- Three successive inserts with distinct paths. -/
def db3 : DB :=
  insertOrReplace (insertOrReplace (insertOrReplace
    { rows := [], nextId := 1 }
    "cat" "t1" "img/p1.jpg" none false none none "Unknown")
    "dog" "t2" "img/p2.jpg" none false none none "Unknown")
    "fox" "t3" "img/p3.jpg" none false none none "Unknown"

/-- Witness for C9: after three distinct-path inserts, `limit = 2` returns
exactly the two most recent records, most-recent first. -/
theorem C9_witness :
    db3.rows.Pairwise (fun a b => a.id < b.id) ∧
    get_latest_alertsE true 2 db3 =
      Except.ok [("fox", "t3", none, none, none, some "Unknown"),
        ("dog", "t2", none, none, none, some "Unknown")] := by
  refine ⟨by decide, ?_⟩
  rw [(C9_get_latest_alerts 2 db3 (by decide)).1]
  rfl

/-- Claim C10: re-storing an existing `image_path` replaces its row under a
fresh, strictly larger autoincrement id, so the re-stored record becomes
the first result of a subsequent `get_latest_alerts` call. -/
theorem C10_reinsert_becomes_most_recent (env : StoreEnv)
    (label img_path timestamp : String) (st : SysState) (r : AlertRow)
    (limit : Nat) (hconn : env.connectOk = true)
    (hsorted : st.db.rows.Pairwise (fun a b => a.id < b.id))
    (hbound : ∀ x ∈ st.db.rows, x.id < st.db.nextId)
    (hprior : lookupRow st.db img_path = some r) (hlim : 0 < limit) :
    ∃ ret st' r',
      store_alertE env label img_path timestamp st = Except.ok (ret, st') ∧
      lookupRow st'.db img_path = some r' ∧
      r.id < r'.id ∧ r'.id = st.db.nextId ∧
      ∃ rest, get_latest_alertsE true limit st'.db =
        Except.ok (projectRow r' :: rest) := by
  have hdb : (storeAlertRun env label img_path timestamp st).2.db =
      insertOrReplace st.db label timestamp img_path
        (uploadStep env.upload).1 (optTruthy (uploadStep env.upload).1)
        (geoStep env.geo).1 (geoStep env.geo).2.1 (geoStep env.geo).2.2 := by
    rw [storeAlertRun_db, if_pos hconn]
  have hrid : r.id < st.db.nextId :=
    hbound r (List.mem_of_find?_eq_some hprior)
  have hpair := pairwise_insertOrReplace st.db label timestamp img_path
    (uploadStep env.upload).1 (optTruthy (uploadStep env.upload).1)
    (geoStep env.geo).1 (geoStep env.geo).2.1 (geoStep env.geo).2.2
    hsorted hbound
  refine ⟨(storeAlertRun env label img_path timestamp st).1,
    (storeAlertRun env label img_path timestamp st).2,
    insertedRow env label timestamp img_path st.db,
    ?_, lookup_run_db env label img_path timestamp st hconn, hrid, rfl, ?_⟩
  · rw [store_alertE_eq]
  · cases limit with
    | zero => exact absurd hlim (by decide)
    | succ k =>
      refine ⟨((st.db.rows.filter
        (fun x => x.image_path ≠ img_path)).reverse.take k).map projectRow,
        ?_⟩
      unfold get_latest_alertsE
      rw [if_pos rfl, hdb, sortByIdDesc_of_sorted _ (by rw [← hdb]; exact
        (hdb ▸ hpair)), insertOrReplace_rows]
      rw [List.reverse_append, List.reverse_singleton, List.singleton_append,
        List.take_succ_cons, List.map_cons]
      rfl

/-- A notifier environment whose endpoint answers HTTP 200. -/
def tgEnvOk : TgEnv :=
  { openFile := Except.ok (),
    post := fun _ => Except.ok { status_code := 200, text := "ok" } }

/-- Witness for C4: a 200 response yields true; an unopenable image file
yields false with no exception. -/
theorem C4_witness :
    send_alertE tgEnvOk "cat" "2026-10-12 10:00:00" "img/a.jpg" none =
      Except.ok true ∧
    send_alertE { tgEnvOk with openFile := Except.error () } "cat"
      "2026-10-12 10:00:00" "img/a.jpg" none = Except.ok false := by
  constructor
  · exact (C4_send_alert_true_iff_http200 tgEnvOk "cat" "2026-10-12 10:00:00"
      "img/a.jpg" none).2.mpr ⟨rfl, { status_code := 200, text := "ok" }, rfl,
      rfl⟩
  · rfl

/-- Witness for C10: re-storing the only row of `dbA` produces a row with a
larger id that heads the next `get_latest_alerts`. -/
theorem C10_witness :
    ∃ ret st' r',
      store_alertE envPlain "cat" "img/a.jpg" "t9"
        { db := dbA, remote := [] } = Except.ok (ret, st') ∧
      lookupRow st'.db "img/a.jpg" = some r' ∧
      rowA.id < r'.id ∧ r'.id = 2 ∧
      ∃ rest, get_latest_alertsE true 5 st'.db =
        Except.ok (projectRow r' :: rest) :=
  C10_reinsert_becomes_most_recent envPlain "cat" "img/a.jpg" "t9"
    { db := dbA, remote := [] } rowA 5 rfl (by decide) (by decide) (by decide)
    (by decide)

end IntruderDetection
